import Mathlib

/-
Verification development for the pose-graph SLAM front end in
src/slam/slam.cc (class slam::SLAM) and its driver src/slam/slam_main.cc.

The embedding models the C++ code over exact real arithmetic (ℝ for the
float/double values of the source).  External collaborators (the
correlative scan matcher and the incremental GTSAM/iSAM2 solver) are
modelled as oracle parameters, exactly at the interface the code consumes.
Machine-level behaviour that exact arithmetic cannot express (the
float-to-unsigned conversion of a negative or NaN loop bound in
convertLidar2PointCloud) is made explicit: the conversion is partial, and
an input that the C++ code handles only via undefined behaviour is mapped
to `none`.
-/

noncomputable section

namespace Slam

open Real

/-- Modelled from the spec: Pose2D (shared/math/poses_2d.h is not part of
src/) — "{ angle: float (radians), translation: 2D vector }".  Angles and
coordinates are exact reals. -/
structure Pose2D where
  angle : ℝ
  translation : ℝ × ℝ

/-- Modelled from the spec: PoseGraphNode (the PgNode class of slam.h is
not part of src/) — "id: monotonically increasing integer ...;
estimated_pose: Pose2D in the global/map frame; point_cloud: ordered
sequence of 2D points in the node's local (sensor) frame".  Constructor
order follows the slam.cc call sites `PgNode(pose, node_number, cloud)`. -/
structure PgNode where
  pose : Pose2D
  id : ℕ
  cloud : List (ℝ × ℝ)

/-- Default node used for list lookups that the C++ code performs with
unchecked indexing (`pg_nodes_[i]`); all verified paths stay in bounds. -/
def dfltNode : PgNode := ⟨⟨0, (0, 0)⟩, 0, []⟩

/-- A 3×3 covariance / information matrix, as nine exact reals. -/
structure Mat3 where
  m00 : ℝ
  m01 : ℝ
  m02 : ℝ
  m10 : ℝ
  m11 : ℝ
  m12 : ℝ
  m20 : ℝ
  m21 : ℝ
  m22 : ℝ

/-- The identity matrix written by the `fix_covariance` debugging branch
of SLAM::ScanMatch (slam.cc lines 561-566). -/
def idMat3 : Mat3 := ⟨1, 0, 0, 0, 1, 0, 0, 0, 1⟩

/-- A factor added to the gtsam::NonlinearFactorGraph `graph_`:
`PriorFactor<Pose2>` carries the anchored pose and the diagonal sigmas;
`BetweenFactor<Pose2>` carries the two node keys, the relative-pose
measurement and the covariance (slam.cc lines 194-199 and 272-280). -/
inductive Factor where
  | prior (node : ℕ) (pose : Pose2D) (sigmas : ℝ × ℝ × ℝ)
  | between (src : ℕ) (dst : ℕ) (pose : Pose2D) (cov : Mat3)

/-- Source node key of a factor (the prior's single key for priors). -/
def Factor.srcId : Factor → ℕ
  | .prior n _ _ => n
  | .between a _ _ _ => a

/-- Destination node key of a factor (the prior's single key for priors). -/
def Factor.dstId : Factor → ℕ
  | .prior n _ _ => n
  | .between _ b _ _ => b

/-- Whether a factor is a prior factor. -/
def Factor.isPrior : Factor → Bool
  | .prior _ _ _ => true
  | .between _ _ _ _ => false

/-- Euclidean norm of a 2D vector, Eigen's `.norm()`. -/
def norm2 (v : ℝ × ℝ) : ℝ := Real.sqrt (v.1 ^ 2 + v.2 ^ 2)

/-- Modelled from the spec: math_util::AngleMod (shared/math/math_util.h
is not part of src/) — wrap an angle to the half-open interval (-π, π],
i.e. subtract the nearest multiple of 2π. -/
def angleMod (x : ℝ) : ℝ := x - 2 * π * round (x / (2 * π))

/-- Modelled from the spec: math_util::AngleDist (shared/math/math_util.h
is not part of src/) — "circular distance, always the shorter arc"
between two headings. -/
def angleDist (a b : ℝ) : ℝ := |angleMod (a - b)|

/-- Application of Eigen::Rotation2Df θ to a 2D vector: the standard
2D rotation matrix. -/
def rotate (θ : ℝ) (v : ℝ × ℝ) : ℝ × ℝ :=
  (Real.cos θ * v.1 - Real.sin θ * v.2, Real.sin θ * v.1 + Real.cos θ * v.2)

/-- SLAM::transformPoseFromSrc2Map (slam.cc lines 499-510): rotate the
pose's translation by the reference frame's heading, add the reference
translation, and wrap the summed headings. -/
def transformPoseFromSrc2Map (p r : Pose2D) : Pose2D :=
  ⟨angleMod (r.angle + p.angle), r.translation + rotate r.angle p.translation⟩

/-- SLAM::transformPoseFromMap2Target (slam.cc lines 514-526): subtract
the target frame's translation, rotate by the negated target heading, and
wrap the subtracted headings. -/
def transformPoseFromMap2Target (q r : Pose2D) : Pose2D :=
  ⟨angleMod (q.angle - r.angle), rotate (-r.angle) (q.translation - r.translation)⟩

/-- Value lattice for the two float divisions in
SLAM::convertLidar2PointCloud: a finite real, an infinity (sign dropped;
only its propagation matters here), or NaN. -/
inductive Fp where
  | fin (x : ℝ)
  | inf
  | nan

/-- IEEE division of a finite numerator by an `Fp` denominator:
finite/0 is NaN when the numerator is 0 and ±∞ otherwise; finite/∞ is 0;
anything by NaN is NaN. -/
def fdivFin (a : ℝ) : Fp → Fp
  | .fin b => if b = 0 then (if a = 0 then .nan else .inf) else .fin (a / b)
  | .inf => .fin 0
  | .nan => .nan

/-- The C++ conversion `unsigned int N = floor(value)`: defined only for a
finite value whose floor is representable as a 32-bit unsigned integer;
a negative, too-large, infinite or NaN value is undefined behaviour,
modelled as `none`. -/
def floorToUnsigned : Fp → Option ℕ
  | .fin x => if 0 ≤ ⌊x⌋ ∧ ⌊x⌋ < 2 ^ 32 then some ⌊x⌋.toNat else none
  | .inf => none
  | .nan => none

/-- Finite payload of an `Fp` value (only read on paths where the value is
finite). -/
def Fp.val : Fp → ℝ
  | .fin x => x
  | .inf => 0
  | .nan => 0

/-- The loop body of SLAM::convertLidar2PointCloud (slam.cc lines
325-338), iterating `k` more times with next range index `i` and current
accumulated beam angle `cur`: the angle is incremented first, a reading
outside the open interval (range_min, range_max) is discarded, and a kept
reading is converted to Cartesian coordinates and shifted by the sensor
offset kLaserLoc = (0.2, 0). -/
def lidarLoop (ranges : List ℝ) (rmin rmax inc : ℝ) : ℕ → ℕ → ℝ → List (ℝ × ℝ)
  | 0, _, _ => []
  | k + 1, i, cur =>
    let a := cur + inc
    let r := ranges.getD i 0
    if rmax ≤ r ∨ r ≤ rmin then lidarLoop ranges rmin rmax inc k (i + 1) a
    else (r * Real.cos a + 0.2, r * Real.sin a) :: lidarLoop ranges rmin rmax inc k (i + 1) a

/-- SLAM::convertLidar2PointCloud (slam.cc lines 313-339):
`angle_increment = (angle_max - angle_min) / (ranges.size() - 1.0)`,
`N = floor((angle_max - angle_min) / angle_increment)` stored into an
`unsigned int`, then the loop over `i < N`.  Returns `none` exactly when
the float-to-unsigned conversion of the loop bound is undefined
behaviour (negative, excessive, infinite or NaN bound). -/
def convertLidar2PointCloud (ranges : List ℝ) (rmin rmax amin amax : ℝ) :
    Option (List (ℝ × ℝ)) :=
  let span := amax - amin
  let incF := fdivFin span (.fin ((ranges.length : ℝ) - 1))
  match floorToUnsigned (fdivFin span incF) with
  | none => none
  | some n => some (lidarLoop ranges rmin rmax incF.val n 0 (amin - incF.val))

/-- The configuration constants read from config/slam.lua by the
CONFIG_FLOAT/CONFIG_BOOL declarations of slam.cc (lines 56-83). -/
structure Config where
  minAngleDiffBetweenNodes : ℝ
  minTransDiffBetweenNodes : ℝ
  newNodeXStd : ℝ
  newNodeYStd : ℝ
  newNodeThetaStd : ℝ
  maxFactorsPerNode : ℝ
  maximumNodeDisScanComparison : ℝ
  nonSuccessiveScanConstraints : Bool
  initialNodeGlobalX : ℝ
  initialNodeGlobalY : ℝ
  initialNodeGlobalTheta : ℝ
  runOnline : Bool
  runOffline : Bool
  fixMean : Bool
  fixCovariance : Bool

/-- The external scan matcher's interface,
`matcher.GetTransform(match_cloud, base_cloud, odom, &transform)`
(slam.cc line 544): given the two clouds and the initial-guess transform
(translation, angle), it reports convergence and writes a
(translation, angle) transform with a 3×3 covariance. -/
abbrev Matcher : Type :=
  List (ℝ × ℝ) → List (ℝ × ℝ) → ((ℝ × ℝ) × ℝ) → Bool × ((ℝ × ℝ) × ℝ) × Mat3

/-- History of deliveries made to one gtsam::ISAM2 instance: each
`isam_->update(graph, values)` call appends the factor list and the
initial values it passed. -/
abbrev SolverHistory : Type := List (List Factor × List (ℕ × Pose2D))

/-- The external incremental solver's interface: a deterministic map from
the full history of update calls to the estimate returned by
`isam_->calculateEstimate()` for each node key. -/
abbrev Solver : Type := SolverHistory → ℕ → Pose2D

/-- The mutable state of the slam::SLAM object (constructor, slam.cc
lines 99-109) plus the function-local static `run_before` of
offlineOptimizePoseGraph and the delivery history of the current
`isam_` instance. -/
structure SlamState where
  prevOdomLoc : ℝ × ℝ
  prevOdomAngle : ℝ
  odomInitialized : Bool
  firstScan : Bool
  lastNodeCumulativeDist : ℝ
  stopSlamCmdRecv : Bool
  lastNodeOdomPose : Pose2D
  recentPointCloud : List (ℝ × ℝ)
  pgNodes : List PgNode
  graph : List Factor
  runBefore : Bool
  isamHistory : SolverHistory

/-- SLAM::SLAM (slam.cc lines 99-109): zeroed odometry state, first_scan
true, empty graph and fresh solver.  The un-initialised
`last_node_odom_pose_` member is modelled as the zero pose. -/
def initState : SlamState :=
  { prevOdomLoc := (0, 0)
    prevOdomAngle := 0
    odomInitialized := false
    firstScan := true
    lastNodeCumulativeDist := 0
    stopSlamCmdRecv := false
    lastNodeOdomPose := ⟨0, (0, 0)⟩
    recentPointCloud := []
    pgNodes := []
    graph := []
    runBefore := false
    isamHistory := [] }

/-- SLAM::ObserveOdometry (slam.cc lines 282-293): mark odometry as
initialised, add the Euclidean distance from the previously stored
location unconditionally, and store the new location and heading. -/
def observeOdometry (s : SlamState) (loc : ℝ × ℝ) (ang : ℝ) : SlamState :=
  { s with
    odomInitialized := true
    lastNodeCumulativeDist := s.lastNodeCumulativeDist + norm2 (loc - s.prevOdomLoc)
    prevOdomAngle := ang
    prevOdomLoc := loc }

/-- SLAM::shouldAddPgNode (slam.cc lines 165-176): admit when the
cumulative distance strictly exceeds the translation threshold or the
circular angular distance strictly exceeds the angle threshold; reset the
cumulative distance exactly on admission. -/
def shouldAddPgNode (cfg : Config) (s : SlamState) : Bool × SlamState :=
  if s.lastNodeCumulativeDist > cfg.minTransDiffBetweenNodes ∨
      angleDist s.prevOdomAngle s.lastNodeOdomPose.angle > cfg.minAngleDiffBetweenNodes then
    (true, { s with lastNodeCumulativeDist := 0 })
  else
    (false, s)

/-- SLAM::ScanMatch (slam.cc lines 528-570): compute the initial guess as
the match node's pose relative to the base node's pose, call the matcher
with (match cloud, base cloud, guess), return `none` when it did not
converge, and otherwise the measured transform — subject to the fix_mean
and fix_covariance debugging overrides. -/
def ScanMatch (cfg : Config) (m : Matcher) (base mn : PgNode) : Option (Pose2D × Mat3) :=
  let odomRel := transformPoseFromMap2Target mn.pose base.pose
  let res := m mn.cloud base.cloud (odomRel.translation, odomRel.angle)
  if res.1 then
    let mean := if cfg.fixMean then odomRel else ⟨res.2.1.2, res.2.1.1⟩
    let cov := if cfg.fixCovariance then idMat3 else res.2.2
    some (mean, cov)
  else
    none

/-- The non-successive candidate loop of
SLAM::updatePoseGraphObsConstraints (slam.cc lines 360-392), iterating
over the remaining candidate indices with the current count of added
factors: break once the count reaches max_factors_per_node, filter by
Euclidean distance between the candidate's and the preceding node's
estimated poses, and on a converged match add a constraint from the
candidate to the preceding node. -/
def nonSuccLoop (cfg : Config) (m : Matcher) (nodes : List PgNode) (preceding : PgNode) :
    List ℕ → ℕ → List Factor
  | [], _ => []
  | i :: rest, numAdded =>
    if (numAdded : ℝ) ≥ cfg.maxFactorsPerNode then []
    else
      if norm2 ((nodes.getD i dfltNode).pose.translation - preceding.pose.translation) ≤
          cfg.maximumNodeDisScanComparison then
        match ScanMatch cfg m (nodes.getD i dfltNode) preceding with
        | some r =>
          Factor.between (nodes.getD i dfltNode).id preceding.id r.1 r.2 ::
            nonSuccLoop cfg m nodes preceding rest (numAdded + 1)
        | none => nonSuccLoop cfg m nodes preceding rest numAdded
      else
        nonSuccLoop cfg m nodes preceding rest numAdded

/-- SLAM::updatePoseGraphObsConstraints (slam.cc lines 340-393): the
factors appended to `graph_` for a new node — a successive constraint
from the preceding node when the scan match converges, then, when
non-successive constraints are enabled and the new id exceeds 2, the
candidate loop over indices 0, 1, ..., id - 3 (`i < id - 2` with
skip_count 1 and start 0). -/
def updatePoseGraphObsConstraints (cfg : Config) (m : Matcher)
    (nodes : List PgNode) (nn : PgNode) : List Factor :=
  (match ScanMatch cfg m (nodes.getD (nn.id - 1) dfltNode) nn with
    | some r => [Factor.between (nodes.getD (nn.id - 1) dfltNode).id nn.id r.1 r.2]
    | none => []) ++
  (if cfg.nonSuccessiveScanConstraints = true ∧ 2 < nn.id then
    nonSuccLoop cfg m nodes (nodes.getD (nn.id - 1) dfltNode) (List.range (nn.id - 2)) 0
  else [])

/-- SLAM::optimizePoseGraph (slam.cc lines 460-475): deliver the ENTIRE
current `graph_` together with the new initial values to
`isam_->update`, then overwrite every stored node pose with the
estimate returned by `isam_->calculateEstimate()`. -/
def optimizePoseGraph (solver : Solver) (s : SlamState)
    (vals : List (ℕ × Pose2D)) : SlamState :=
  let history := s.isamHistory ++ [(s.graph, vals)]
  let est := solver history
  { s with
    isamHistory := history
    pgNodes := s.pgNodes.map fun nd => { nd with pose := est nd.id } }

/-- SLAM::updatePoseGraph (slam.cc lines 178-270).  First scan: create
node 0 at the configured global origin, add (online) the prior factor,
record the odometry reference, push the node and (online) run the
incremental optimizer with the new node's initial value.  Later scans:
compose the odometry displacement since the last node into the last
node's estimated frame to get the map-frame initial pose, create the
node, record the odometry reference, append (online) the observation
constraints, push the node and (online) optimize. -/
def updatePoseGraph (cfg : Config) (solver : Solver) (m : Matcher)
    (s : SlamState) : SlamState :=
  if s.firstScan then
    let pose0 : Pose2D :=
      ⟨cfg.initialNodeGlobalTheta, (cfg.initialNodeGlobalX, cfg.initialNodeGlobalY)⟩
    let newNode : PgNode := ⟨pose0, s.pgNodes.length, s.recentPointCloud⟩
    let graph1 :=
      if cfg.runOnline then
        s.graph ++ [Factor.prior newNode.id pose0
          (cfg.newNodeXStd, cfg.newNodeYStd, cfg.newNodeThetaStd)]
      else s.graph
    let s1 := { s with
      firstScan := false
      graph := graph1
      lastNodeOdomPose := ⟨s.prevOdomAngle, s.prevOdomLoc⟩
      pgNodes := s.pgNodes ++ [newNode] }
    if cfg.runOnline then optimizePoseGraph solver s1 [(newNode.id, newNode.pose)] else s1
  else
    let relPose := transformPoseFromMap2Target ⟨s.prevOdomAngle, s.prevOdomLoc⟩
      s.lastNodeOdomPose
    let posMap := transformPoseFromSrc2Map relPose (s.pgNodes.getLastD dfltNode).pose
    let newNode : PgNode := ⟨posMap, s.pgNodes.length, s.recentPointCloud⟩
    let graph1 :=
      if cfg.runOnline then
        s.graph ++ updatePoseGraphObsConstraints cfg m s.pgNodes newNode
      else s.graph
    let s1 := { s with
      lastNodeOdomPose := ⟨s.prevOdomAngle, s.prevOdomLoc⟩
      graph := graph1
      pgNodes := s.pgNodes ++ [newNode] }
    if cfg.runOnline then optimizePoseGraph solver s1 [(newNode.id, newNode.pose)] else s1

/-- SLAM::ObserveLaser (slam.cc lines 142-163): unless the stop command
was received, run the admission check (which resets the cumulative
distance on success); on admission convert the scan to the recent point
cloud and update the pose graph.  Returns `none` when the scan
conversion hits undefined behaviour. -/
def observeLaser (cfg : Config) (solver : Solver) (m : Matcher)
    (ranges : List ℝ) (rmin rmax amin amax : ℝ) (s : SlamState) :
    Option SlamState :=
  if s.stopSlamCmdRecv then some s
  else
    let pr := shouldAddPgNode cfg s
    if pr.1 then
      match convertLidar2PointCloud ranges rmin rmax amin amax with
      | none => none
      | some pc => some (updatePoseGraph cfg solver m { pr.2 with recentPointCloud := pc })
    else some pr.2

/-- SLAM::offlineOptimizePoseGraph (slam.cc lines 395-459): a no-op when
the one-shot `run_before` flag is already set; otherwise discard the old
graph and solver, replay — in id order — the prior for node 0 and the
observation constraints for every later node, submit the whole graph with
every node's current pose as initial value to the freshly constructed
solver, overwrite all node poses with the batch result, and set the
one-shot flag. -/
def offlineOptimizePoseGraph (cfg : Config) (solver : Solver) (m : Matcher)
    (s : SlamState) : SlamState :=
  if s.runBefore then s
  else
    let graph1 := (List.range s.pgNodes.length).foldl
      (fun g i =>
        if i = 0 then
          g ++ [Factor.prior (s.pgNodes.getD 0 dfltNode).id
            ⟨cfg.initialNodeGlobalTheta, (cfg.initialNodeGlobalX, cfg.initialNodeGlobalY)⟩
            (cfg.newNodeXStd, cfg.newNodeYStd, cfg.newNodeThetaStd)]
        else
          g ++ updatePoseGraphObsConstraints cfg m s.pgNodes (s.pgNodes.getD i dfltNode))
      []
    let vals := s.pgNodes.map fun nd => (nd.id, nd.pose)
    let est := solver [(graph1, vals)]
    { s with
      graph := graph1
      isamHistory := [(graph1, vals)]
      pgNodes := s.pgNodes.map fun nd => { nd with pose := est nd.id }
      runBefore := true }

/-- SLAM::stop_frontend (slam.cc lines 572-578): record the stop command
and run the offline optimization pass. -/
def stopFrontend (cfg : Config) (solver : Solver) (m : Matcher)
    (s : SlamState) : SlamState :=
  offlineOptimizePoseGraph cfg solver m { s with stopSlamCmdRecv := true }

/-- Well-formed node store: the node stored at index k carries id k (the
spec's "equals the node's insertion index"; maintained by construction in
updatePoseGraph). -/
def wfNodes (nodes : List PgNode) : Prop :=
  ∀ k, k < nodes.length → (nodes.getD k dfltNode).id = k

/-- A concrete configuration for evaluating the model: thresholds 1/2 rad
and 1 length unit, unit standard deviations, at most 10 extra factors,
100-unit candidate distance, non-successive constraints enabled, origin
(0, 0, 0), online mode, no debugging overrides. -/
def cfgW : Config :=
  ⟨1 / 2, 1, 1, 1, 1, 10, 100, true, 0, 0, 0, true, false, false, false⟩

/-- A solver oracle whose estimate is the zero pose for every key. -/
def solverZero : Solver := fun _ _ => ⟨0, (0, 0)⟩

/-- A matcher oracle that always converges and returns the initial guess
with the identity covariance. -/
def matcherConv : Matcher := fun _ _ od => (true, od, idMat3)

/-- A matcher oracle that never converges. -/
def matcherReject : Matcher := fun _ _ od => (false, od, idMat3)

/-- State after `ObserveOdometry((2,0), 0)` on the fresh object. -/
def sOdo1 : SlamState :=
  { prevOdomLoc := (2, 0), prevOdomAngle := 0, odomInitialized := true,
    firstScan := true, lastNodeCumulativeDist := 2, stopSlamCmdRecv := false,
    lastNodeOdomPose := ⟨0, (0, 0)⟩, recentPointCloud := [], pgNodes := [],
    graph := [], runBefore := false, isamHistory := [] }

/-- Node 0 of the concrete run: the configured origin with an empty cloud. -/
def node0W : PgNode := ⟨⟨0, (0, 0)⟩, 0, []⟩

/-- The prior factor of the concrete run. -/
def priorW : Factor := Factor.prior 0 ⟨0, (0, 0)⟩ (1, 1, 1)

/-- State after the first admitted laser scan of the concrete run. -/
def sNode0 : SlamState :=
  { prevOdomLoc := (2, 0), prevOdomAngle := 0, odomInitialized := true,
    firstScan := false, lastNodeCumulativeDist := 0, stopSlamCmdRecv := false,
    lastNodeOdomPose := ⟨0, (2, 0)⟩, recentPointCloud := [], pgNodes := [node0W],
    graph := [priorW], runBefore := false,
    isamHistory := [([priorW], [(0, ⟨0, (0, 0)⟩)])] }

/-- State after `ObserveOdometry((4,0), 0)` following the first node. -/
def sOdo2 : SlamState :=
  { prevOdomLoc := (4, 0), prevOdomAngle := 0, odomInitialized := true,
    firstScan := false, lastNodeCumulativeDist := 2, stopSlamCmdRecv := false,
    lastNodeOdomPose := ⟨0, (2, 0)⟩, recentPointCloud := [], pgNodes := [node0W],
    graph := [priorW], runBefore := false,
    isamHistory := [([priorW], [(0, ⟨0, (0, 0)⟩)])] }

/-- Node 1 of the concrete run as created (initial pose (2,0,0)). -/
def node1W : PgNode := ⟨⟨0, (2, 0)⟩, 1, []⟩

/-- The successive between-factor of the concrete run. -/
def btwW : Factor := Factor.between 0 1 ⟨0, (2, 0)⟩ idMat3

/-- State after the second admitted laser scan of the concrete run (the
solver oracle estimates the zero pose for every node). -/
def sNode1 : SlamState :=
  { prevOdomLoc := (4, 0), prevOdomAngle := 0, odomInitialized := true,
    firstScan := false, lastNodeCumulativeDist := 0, stopSlamCmdRecv := false,
    lastNodeOdomPose := ⟨0, (4, 0)⟩, recentPointCloud := [],
    pgNodes := [node0W, ⟨⟨0, (0, 0)⟩, 1, []⟩],
    graph := [priorW, btwW], runBefore := false,
    isamHistory := [([priorW], [(0, ⟨0, (0, 0)⟩)]),
                    ([priorW, btwW], [(1, ⟨0, (2, 0)⟩)])] }

/-- A concrete online run: odometry to (2,0), a laser scan (both readings
out of range, so the cloud is empty), odometry to (4,0), a second laser
scan.  Both scans pass the admission check, so two nodes are admitted and
the incremental optimizer is invoked twice. -/
def runC1 : Option SlamState :=
  (observeLaser cfgW solverZero matcherConv [5, 5] (1 / 2) 2 0 1
      (observeOdometry initState (2, 0) 0)).bind
    fun s => observeLaser cfgW solverZero matcherConv [5, 5] (1 / 2) 2 0 1
      (observeOdometry s (4, 0) 0)

/-- Three existing nodes, all at the map origin, ids 0, 1, 2. -/
def nodesThree : List PgNode :=
  [⟨⟨0, (0, 0)⟩, 0, []⟩, ⟨⟨0, (0, 0)⟩, 1, []⟩, ⟨⟨0, (0, 0)⟩, 2, []⟩]

/-- A new node with id 3 at the map origin. -/
def nodeThree : PgNode := ⟨⟨0, (0, 0)⟩, 3, []⟩

lemma rotate_neg_rotate (θ : ℝ) (v : ℝ × ℝ) : rotate (-θ) (rotate θ v) = v := by
  have h := Real.sin_sq_add_cos_sq θ
  obtain ⟨x, y⟩ := v
  simp only [rotate, Real.cos_neg, Real.sin_neg, Prod.mk.injEq]
  constructor
  · linear_combination x * h
  · linear_combination y * h

lemma angleMod_zero : angleMod 0 = 0 := by
  simp [angleMod]

lemma sqrt_four : Real.sqrt 4 = 2 := by
  rw [show (4 : ℝ) = 2 ^ 2 by norm_num, Real.sqrt_sq (by norm_num : (0 : ℝ) ≤ 2)]

/-- Claim C3: the two frame-transform utilities are exact inverses — for
every pose p and reference pose r, transforming p into the map frame via r
and back into r's frame returns p, with the translation recovered exactly
and the angle recovered up to a multiple of 2π. -/
theorem c3_transform_inverse (p r : Pose2D) :
    (transformPoseFromMap2Target (transformPoseFromSrc2Map p r) r).translation
        = p.translation ∧
    ∃ k : ℤ, (transformPoseFromMap2Target (transformPoseFromSrc2Map p r) r).angle
        = p.angle + 2 * π * k := by
  constructor
  · show rotate (-r.angle)
        ((r.translation + rotate r.angle p.translation) - r.translation) = p.translation
    rw [add_sub_cancel_left]
    exact rotate_neg_rotate r.angle p.translation
  · refine ⟨-(round ((r.angle + p.angle) / (2 * π)) +
      round ((angleMod (r.angle + p.angle) - r.angle) / (2 * π))), ?_⟩
    show angleMod (angleMod (r.angle + p.angle) - r.angle) = _
    unfold angleMod
    push_cast
    ring

/-- Claim C10: ObserveOdometry always adds the Euclidean distance between
the new and the previously stored odometry location to the cumulative
counter (the odom_initialized_ flag only gets set, it suppresses
nothing), the stored location starts at (0,0) in the constructor, and so
the very first odometry observation adds the full distance from the
origin. -/
theorem c10_odometry_accumulation :
    (∀ (s : SlamState) (loc : ℝ × ℝ) (ang : ℝ),
        observeOdometry s loc ang =
          { s with
            odomInitialized := true
            lastNodeCumulativeDist :=
              s.lastNodeCumulativeDist + norm2 (loc - s.prevOdomLoc)
            prevOdomAngle := ang
            prevOdomLoc := loc }) ∧
    initState.prevOdomLoc = (0, 0) ∧
    (∀ (loc : ℝ × ℝ) (ang : ℝ),
        (observeOdometry initState loc ang).lastNodeCumulativeDist = norm2 loc) := by
  refine ⟨fun s loc ang => rfl, rfl, fun loc ang => ?_⟩
  simp [observeOdometry, initState, norm2, Prod.fst_sub, Prod.snd_sub]

/-- Claim C7: the admission check returns true exactly when the cumulative
distance strictly exceeds the translation threshold or the circular
angular distance between the current heading and the last node's recorded
heading strictly exceeds the angle threshold; on true the cumulative
distance is reset to zero (and nothing else changes), on false the state
is untouched, and the angular reference is never modified by the check. -/
theorem c7_admission_check (cfg : Config) (s : SlamState) :
    ((shouldAddPgNode cfg s).1 = true ↔
      s.lastNodeCumulativeDist > cfg.minTransDiffBetweenNodes ∨
        angleDist s.prevOdomAngle s.lastNodeOdomPose.angle >
          cfg.minAngleDiffBetweenNodes) ∧
    (shouldAddPgNode cfg s).2.lastNodeOdomPose = s.lastNodeOdomPose ∧
    ((shouldAddPgNode cfg s).1 = true →
      (shouldAddPgNode cfg s).2 = { s with lastNodeCumulativeDist := 0 }) ∧
    ((shouldAddPgNode cfg s).1 = false → (shouldAddPgNode cfg s).2 = s) := by
  unfold shouldAddPgNode
  by_cases h : s.lastNodeCumulativeDist > cfg.minTransDiffBetweenNodes ∨
      angleDist s.prevOdomAngle s.lastNodeOdomPose.angle > cfg.minAngleDiffBetweenNodes
  · rw [if_pos h]
    exact ⟨by simp [h], rfl, fun _ => rfl, by simp⟩
  · rw [if_neg h]
    exact ⟨by simp [h], rfl, by simp, fun _ => rfl⟩

/-- Witness for C7 at a concrete input: with a cumulative distance of 2
and a translation threshold of 1 the check fires and resets the counter. -/
theorem c7_admission_check_witness :
    (shouldAddPgNode cfgW { initState with lastNodeCumulativeDist := 2 }).2 =
      { initState with lastNodeCumulativeDist := 0 } := by
  have h := (c7_admission_check cfgW { initState with lastNodeCumulativeDist := 2 }).2.2.1
  have hb : (shouldAddPgNode cfgW { initState with lastNodeCumulativeDist := 2 }).1 = true := by
    rw [(c7_admission_check cfgW { initState with lastNodeCumulativeDist := 2 }).1]
    exact Or.inl (by norm_num [cfgW, initState])
  exact h hb

lemma offline_runBefore (cfg : Config) (solver : Solver) (m : Matcher) (t : SlamState) :
    (offlineOptimizePoseGraph cfg solver m t).runBefore = true := by
  unfold offlineOptimizePoseGraph
  by_cases h : t.runBefore = true
  · rw [if_pos h]; exact h
  · rw [if_neg h]

lemma offline_stop (cfg : Config) (solver : Solver) (m : Matcher) (t : SlamState) :
    (offlineOptimizePoseGraph cfg solver m t).stopSlamCmdRecv = t.stopSlamCmdRecv := by
  unfold offlineOptimizePoseGraph
  by_cases h : t.runBefore = true
  · rw [if_pos h]
  · rw [if_neg h]

lemma setStop_eq_self (s : SlamState) (h : s.stopSlamCmdRecv = true) :
    ({ s with stopSlamCmdRecv := true } : SlamState) = s := by
  cases s
  simp_all

/-- Claim C9: the offline optimization pass is one-shot — a second (and
any further) invocation of stop_frontend is a no-op, leaving the whole
state (in particular every node's stored pose) identical to the state
after the first invocation. -/
theorem c9_offline_one_shot (cfg : Config) (solver : Solver) (m : Matcher)
    (s : SlamState) :
    stopFrontend cfg solver m (stopFrontend cfg solver m s) =
      stopFrontend cfg solver m s := by
  unfold stopFrontend
  have h2 : (offlineOptimizePoseGraph cfg solver m
      { s with stopSlamCmdRecv := true }).stopSlamCmdRecv = true := by
    rw [offline_stop]
  rw [setStop_eq_self _ h2]
  generalize hu : offlineOptimizePoseGraph cfg solver m
    { s with stopSlamCmdRecv := true } = u
  have h1 : u.runBefore = true := by
    rw [← hu]; exact offline_runBefore cfg solver m _
  unfold offlineOptimizePoseGraph
  rw [if_pos h1]

/-- Claim C4: on a zero-length range array the lidar conversion does not
return an empty cloud — the computed loop bound is
floor((amax − amin) / ((amax − amin) / (0 − 1))) = −1, whose conversion
to `unsigned int` is undefined behaviour (modelled as `none`); on common
platforms it yields a huge iteration count indexing past the empty
array. -/
theorem c4_empty_scan_undefined :
    convertLidar2PointCloud [] (1 / 2) 2 0 1 = none := by
  norm_num [convertLidar2PointCloud, fdivFin, floorToUnsigned]

/-- Counterexample to claim C5 as stated: the scan [1, 1] with
range_min = 1/2, range_max = 2 has both readings strictly in range, so
the claim demands two points, but the conversion produces exactly one —
the loop bound floor((amax−amin)/inc) = N−1 never processes the last
index. -/
theorem c5_last_reading_dropped :
    (convertLidar2PointCloud [1, 1] (1 / 2) 2 0 1).map List.length = some 1 := by
  norm_num [convertLidar2PointCloud, fdivFin, floorToUnsigned, lidarLoop, Fp.val]

lemma lidarLoop_eq_filterMap (ranges : List ℝ) (rmin rmax inc : ℝ) :
    ∀ (k i : ℕ) (cur : ℝ),
      lidarLoop ranges rmin rmax inc k i cur =
        (List.range k).filterMap fun j =>
          if rmax ≤ ranges.getD (i + j) 0 ∨ ranges.getD (i + j) 0 ≤ rmin then none
          else some (ranges.getD (i + j) 0 * Real.cos (cur + ((j : ℝ) + 1) * inc) + 0.2,
            ranges.getD (i + j) 0 * Real.sin (cur + ((j : ℝ) + 1) * inc)) := by
  intro k
  induction k with
  | zero => intro i cur; simp [lidarLoop]
  | succ k ih =>
    intro i cur
    rw [lidarLoop, List.range_succ_eq_map, List.filterMap_cons, List.filterMap_map]
    have harg : ∀ j : ℕ,
        (fun j =>
          if rmax ≤ ranges.getD (i + j) 0 ∨ ranges.getD (i + j) 0 ≤ rmin then none
          else some (ranges.getD (i + j) 0 * Real.cos (cur + ((j : ℝ) + 1) * inc) + 0.2,
            ranges.getD (i + j) 0 * Real.sin (cur + ((j : ℝ) + 1) * inc))) (j + 1) =
        (fun j =>
          if rmax ≤ ranges.getD (i + 1 + j) 0 ∨ ranges.getD (i + 1 + j) 0 ≤ rmin then none
          else some (ranges.getD (i + 1 + j) 0 *
              Real.cos ((cur + inc) + ((j : ℝ) + 1) * inc) + 0.2,
            ranges.getD (i + 1 + j) 0 *
              Real.sin ((cur + inc) + ((j : ℝ) + 1) * inc))) j := by
      intro j
      have hidx : i + (j + 1) = i + 1 + j := by omega
      have hang : cur + (((j : ℕ) + 1 : ℕ) + 1 : ℝ) * inc
          = (cur + inc) + ((j : ℝ) + 1) * inc := by push_cast; ring
      simp only [hidx]
      push_cast
      ring_nf
    rw [ih (i + 1) (cur + inc)]
    by_cases h : rmax ≤ ranges.getD i 0 ∨ ranges.getD i 0 ≤ rmin
    · rw [if_pos h]
      simp only [Nat.cast_zero, add_zero, zero_add, one_mul]
      rw [if_pos (by simpa using h)]
      exact List.filterMap_congr fun j _ => (harg j).symm
    · rw [if_neg h]
      simp only [Nat.cast_zero, add_zero, zero_add, one_mul]
      rw [if_neg (by simpa using h)]
      simp only [List.cons_inj_right]
      exact List.filterMap_congr fun j _ => (harg j).symm

/-- Claim C5, amended: for a range array of length N ≥ 2 and a
non-degenerate span, the conversion uses the angular increment
(angle_max − angle_min)/(N−1), and for each index i from 0 to N−2 (the
last index N−1 is never processed) includes the reading as a Cartesian
point shifted by the sensor offset (0.2, 0) exactly when
range_min < ranges[i] < range_max. -/
theorem c5_conversion_amended (ranges : List ℝ) (rmin rmax amin amax : ℝ) (n : ℕ)
    (hlen : ranges.length = n) (h2 : 2 ≤ n) (hbig : (n : ℤ) - 1 < 2 ^ 32)
    (hspan : amin < amax) :
    convertLidar2PointCloud ranges rmin rmax amin amax =
      some ((List.range (n - 1)).filterMap fun j =>
        if rmax ≤ ranges.getD j 0 ∨ ranges.getD j 0 ≤ rmin then none
        else some (ranges.getD j 0 *
            Real.cos (amin + (j : ℝ) * ((amax - amin) / ((n : ℝ) - 1))) + 0.2,
          ranges.getD j 0 *
            Real.sin (amin + (j : ℝ) * ((amax - amin) / ((n : ℝ) - 1))))) := by
  have hden : ((n : ℝ) - 1) ≠ 0 := by
    have : (2 : ℝ) ≤ (n : ℝ) := by exact_mod_cast h2
    nlinarith
  have hspan0 : amax - amin ≠ 0 := by nlinarith
  have hinc : (amax - amin) / ((n : ℝ) - 1) ≠ 0 := div_ne_zero hspan0 hden
  have hq : (amax - amin) / ((amax - amin) / ((n : ℝ) - 1)) = (n : ℝ) - 1 := by
    field_simp
  have hfl : ⌊(n : ℝ) - 1⌋ = (n : ℤ) - 1 := by
    rw [show (n : ℝ) - 1 = (((n : ℤ) - 1 : ℤ) : ℝ) by push_cast; ring, Int.floor_intCast]
  unfold convertLidar2PointCloud
  rw [hlen]
  simp only [fdivFin, if_neg hden, if_neg hinc, hq, floorToUnsigned, hfl]
  rw [if_pos ⟨by omega, hbig⟩]
  have htonat : ((n : ℤ) - 1).toNat = n - 1 := by omega
  rw [htonat]
  simp only [Fp.val]
  rw [lidarLoop_eq_filterMap]
  congr 1
  apply List.filterMap_congr
  intro j _
  have : amin - (amax - amin) / ((n : ℝ) - 1) + ((j : ℝ) + 1) * ((amax - amin) / ((n : ℝ) - 1))
      = amin + (j : ℝ) * ((amax - amin) / ((n : ℝ) - 1)) := by ring
  simp only [Nat.zero_add, zero_add, this]

/-- Witness for C5 at the concrete scan [1, 1] on [0, 1] with range gate
(1/2, 2): both hypotheses hold and the conversion equals the filterMap
over the single index 0. -/
theorem c5_conversion_amended_witness :
    convertLidar2PointCloud [1, 1] (1 / 2) 2 0 1 =
      some ((List.range (2 - 1)).filterMap fun j =>
        if (2 : ℝ) ≤ ([(1 : ℝ), 1].getD j 0) ∨ ([(1 : ℝ), 1].getD j 0) ≤ 1 / 2 then none
        else some (([(1 : ℝ), 1].getD j 0) *
            Real.cos (0 + (j : ℝ) * ((1 - 0) / (((2 : ℕ) : ℝ) - 1))) + 0.2,
          ([(1 : ℝ), 1].getD j 0) *
            Real.sin (0 + (j : ℝ) * ((1 - 0) / (((2 : ℕ) : ℝ) - 1))))) :=
  c5_conversion_amended [1, 1] (1 / 2) 2 0 1 2 rfl (by norm_num) (by norm_num)
    (by norm_num)

lemma nonSuccLoop_mem (cfg : Config) (m : Matcher) (nodes : List PgNode)
    (preceding : PgNode) :
    ∀ (l : List ℕ) (num : ℕ) (f : Factor),
      f ∈ nonSuccLoop cfg m nodes preceding l num →
      ∃ j ∈ l, ∃ r,
        norm2 ((nodes.getD j dfltNode).pose.translation -
          preceding.pose.translation) ≤ cfg.maximumNodeDisScanComparison ∧
        ScanMatch cfg m (nodes.getD j dfltNode) preceding = some r ∧
        f = Factor.between (nodes.getD j dfltNode).id preceding.id r.1 r.2 := by
  intro l
  induction l with
  | nil => intro num f h; simp [nonSuccLoop] at h
  | cons i rest ih =>
    intro num f h
    rw [nonSuccLoop] at h
    by_cases hb : (num : ℝ) ≥ cfg.maxFactorsPerNode
    · rw [if_pos hb] at h; simp at h
    · rw [if_neg hb] at h
      by_cases hd : norm2 ((nodes.getD i dfltNode).pose.translation -
          preceding.pose.translation) ≤ cfg.maximumNodeDisScanComparison
      · rw [if_pos hd] at h
        cases hsm : ScanMatch cfg m (nodes.getD i dfltNode) preceding with
        | some r =>
          rw [hsm] at h
          rcases List.mem_cons.mp h with h1 | h1
          · exact ⟨i, List.mem_cons_self i rest, r, hd, hsm, h1⟩
          · obtain ⟨j, hj, r2, h3⟩ := ih (num + 1) f h1
            exact ⟨j, List.mem_cons_of_mem i hj, r2, h3⟩
        | none =>
          rw [hsm] at h
          obtain ⟨j, hj, r2, h3⟩ := ih num f h
          exact ⟨j, List.mem_cons_of_mem i hj, r2, h3⟩
      · rw [if_neg hd] at h
        obtain ⟨j, hj, r2, h3⟩ := ih num f h
        exact ⟨j, List.mem_cons_of_mem i hj, r2, h3⟩

/-- Claim C8: non-convergence is a silent skip.  (a) If the matcher
reports converged = false at the pair's clouds and initial guess, then
ScanMatch returns `none` — for every reported transform and covariance,
so the covariance returned by a non-converged match is never used.
(b) If the successive scan match for a new node returns `none`, no factor
between the predecessor and the new node is added for that admission.
(c) If the scan match against candidate i returns `none`, no factor
between i and the predecessor is added for that admission. -/
theorem c8_nonconvergence_skip :
    (∀ (cfg : Config) (m : Matcher) (base mn : PgNode) (t : (ℝ × ℝ) × ℝ) (c : Mat3),
        m mn.cloud base.cloud
            ((transformPoseFromMap2Target mn.pose base.pose).translation,
              (transformPoseFromMap2Target mn.pose base.pose).angle) = (false, t, c) →
        ScanMatch cfg m base mn = none) ∧
    (∀ (cfg : Config) (m : Matcher) (nodes : List PgNode) (nn : PgNode),
        wfNodes nodes → nn.id = nodes.length → 1 ≤ nn.id →
        ScanMatch cfg m (nodes.getD (nn.id - 1) dfltNode) nn = none →
        ∀ (p : Pose2D) (c : Mat3),
          Factor.between (nn.id - 1) nn.id p c ∉
            updatePoseGraphObsConstraints cfg m nodes nn) ∧
    (∀ (cfg : Config) (m : Matcher) (nodes : List PgNode) (nn : PgNode) (i : ℕ),
        wfNodes nodes → nn.id = nodes.length → 1 ≤ nn.id → i < nn.id - 2 →
        ScanMatch cfg m (nodes.getD i dfltNode)
          (nodes.getD (nn.id - 1) dfltNode) = none →
        ∀ (p : Pose2D) (c : Mat3),
          Factor.between i (nn.id - 1) p c ∉
            updatePoseGraphObsConstraints cfg m nodes nn) := by
  have hpre : ∀ (nodes : List PgNode) (nn : PgNode), wfNodes nodes →
      nn.id = nodes.length → 1 ≤ nn.id →
      (nodes.getD (nn.id - 1) dfltNode).id = nn.id - 1 := by
    intro nodes nn hwf hlen h1
    exact hwf (nn.id - 1) (by omega)
  refine ⟨?_, ?_, ?_⟩
  · intro cfg m base mn t c hm
    simp only [ScanMatch]
    rw [hm]
    simp
  · intro cfg m nodes nn hwf hlen h1 hsm p c hmem
    unfold updatePoseGraphObsConstraints at hmem
    rw [hsm] at hmem
    simp only [List.nil_append] at hmem
    by_cases hcond : cfg.nonSuccessiveScanConstraints = true ∧ 2 < nn.id
    · rw [if_pos hcond] at hmem
      obtain ⟨j, hj, r, hd, hsm2, hf⟩ := nonSuccLoop_mem cfg m nodes _ _ _ _ hmem
      rw [hpre nodes nn hwf hlen h1] at hf
      simp only [Factor.between.injEq] at hf
      omega
    · rw [if_neg hcond] at hmem
      simp at hmem
  · intro cfg m nodes nn i hwf hlen h1 hi hsm p c hmem
    unfold updatePoseGraphObsConstraints at hmem
    rcases List.mem_append.mp hmem with hmem1 | hmem1
    · cases hsm1 : ScanMatch cfg m (nodes.getD (nn.id - 1) dfltNode) nn with
      | some r =>
        rw [hsm1] at hmem1
        simp only [List.mem_singleton] at hmem1
        rw [hpre nodes nn hwf hlen h1] at hmem1
        simp only [Factor.between.injEq] at hmem1
        omega
      | none => rw [hsm1] at hmem1; simp at hmem1
    · by_cases hcond : cfg.nonSuccessiveScanConstraints = true ∧ 2 < nn.id
      · rw [if_pos hcond] at hmem1
        obtain ⟨j, hj, r, hd, hsm2, hf⟩ := nonSuccLoop_mem cfg m nodes _ _ _ _ hmem1
        have hjlt : j < nn.id - 2 := List.mem_range.mp hj
        have hjid : (nodes.getD j dfltNode).id = j := hwf j (by omega)
        rw [hjid, hpre nodes nn hwf hlen h1] at hf
        simp only [Factor.between.injEq] at hf
        obtain ⟨hf1, hf2, hf3, hf4⟩ := hf
        subst hf1
        rw [hsm] at hsm2
        exact Option.noConfusion hsm2
      · rw [if_neg hcond] at hmem1
        simp at hmem1

/-- Witness for C8 at a concrete input: a matcher that reports
converged = false leads ScanMatch to return none. -/
theorem c8_nonconvergence_skip_witness :
    ScanMatch cfgW matcherReject dfltNode dfltNode = none :=
  c8_nonconvergence_skip.1 cfgW matcherReject dfltNode dfltNode _ _ rfl

/-- Counterexample to claim C6 as stated: three existing nodes 0, 1, 2
(all at the origin, so every candidate passes the distance filter), new
node 3, an always-converging matcher and a factor budget of 10.  The
claim's candidate set is \x7b0, 1\x7d (all earlier nodes except the
predecessor 2 and the new node 3), so node 1 should yield a constraint —
the budget is far from exhausted — but the code's loop stops at
id − 2 = 1, and only candidate 0 produces a factor: the added factors'
source ids are [2, 0] (the successive factor and one non-successive
factor), with no factor from node 1. -/
theorem c6_candidate_set_counterexample :
    (updatePoseGraphObsConstraints cfgW matcherConv nodesThree nodeThree).map
        Factor.srcId = [2, 0] ∧
    norm2 ((nodesThree.getD 1 dfltNode).pose.translation -
        (nodesThree.getD 2 dfltNode).pose.translation) ≤
      cfgW.maximumNodeDisScanComparison ∧
    (((updatePoseGraphObsConstraints cfgW matcherConv nodesThree nodeThree).length : ℝ)
        < cfgW.maxFactorsPerNode) := by
  refine ⟨?_, ?_, ?_⟩
  · norm_num [updatePoseGraphObsConstraints, nonSuccLoop, ScanMatch, matcherConv,
      nodesThree, nodeThree, cfgW, dfltNode, norm2, List.range_succ, Factor.srcId]
  · norm_num [nodesThree, dfltNode, norm2, cfgW]
  · norm_num [updatePoseGraphObsConstraints, nonSuccLoop, ScanMatch, matcherConv,
      nodesThree, nodeThree, cfgW, dfltNode, norm2, List.range_succ]

lemma nonSuccLoop_length_le (cfg : Config) (m : Matcher) (nodes : List PgNode)
    (preceding : PgNode) (k : ℕ) (hk : cfg.maxFactorsPerNode = (k : ℝ)) :
    ∀ (l : List ℕ) (num : ℕ),
      (nonSuccLoop cfg m nodes preceding l num).length ≤ k - num := by
  intro l
  induction l with
  | nil => intro num; simp [nonSuccLoop]
  | cons i rest ih =>
    intro num
    rw [nonSuccLoop]
    by_cases hb : (num : ℝ) ≥ cfg.maxFactorsPerNode
    · rw [if_pos hb]; simp
    · rw [if_neg hb]
      have hnum : num < k := by
        rw [hk] at hb
        exact_mod_cast lt_of_not_le hb
      by_cases hd : norm2 ((nodes.getD i dfltNode).pose.translation -
          preceding.pose.translation) ≤ cfg.maximumNodeDisScanComparison
      · rw [if_pos hd]
        cases hsm : ScanMatch cfg m (nodes.getD i dfltNode) preceding with
        | some r =>
          have := ih (num + 1)
          simp only [List.length_cons]
          omega
        | none => exact le_trans (ih num) (by omega)
      · rw [if_neg hd]
        exact le_trans (ih num) (by omega)

lemma nonSuccLoop_srcIds_sublist (cfg : Config) (m : Matcher) (nodes : List PgNode)
    (preceding : PgNode) :
    ∀ (l : List ℕ) (num : ℕ),
      ((nonSuccLoop cfg m nodes preceding l num).map Factor.srcId).Sublist
        (l.map fun i => (nodes.getD i dfltNode).id) := by
  intro l
  induction l with
  | nil => intro num; simp [nonSuccLoop]
  | cons i rest ih =>
    intro num
    rw [nonSuccLoop]
    by_cases hb : (num : ℝ) ≥ cfg.maxFactorsPerNode
    · rw [if_pos hb]; simp
    · rw [if_neg hb]
      by_cases hd : norm2 ((nodes.getD i dfltNode).pose.translation -
          preceding.pose.translation) ≤ cfg.maximumNodeDisScanComparison
      · rw [if_pos hd]
        cases hsm : ScanMatch cfg m (nodes.getD i dfltNode) preceding with
        | some r =>
          simp only [List.map_cons, Factor.srcId]
          exact List.Sublist.cons₂ _ (ih (num + 1))
        | none =>
          simp only [List.map_cons]
          exact List.Sublist.cons _ (ih num)
      · rw [if_neg hd]
        simp only [List.map_cons]
        exact List.Sublist.cons _ (ih num)

/-- Claim C6, amended: when non-successive constraints are enabled the
candidate set is the earlier nodes with id at most n − 3 — i.e. the code
additionally excludes node n − 2 (not only the predecessor n − 1 and the
new node n) and attempts nothing unless n > 2.  Candidates are visited in
ascending id order with first-match-wins (the added source ids form a
subsequence of 0, ..., n − 3), each added factor comes from a candidate
that passed the Euclidean distance filter against the predecessor's
estimated pose and whose scan match converged, each is directed from the
candidate to the predecessor, and at most the configured maximum number
of factors is added. -/
theorem c6_nonsuccessive_amended (cfg : Config) (m : Matcher)
    (nodes : List PgNode) (nn : PgNode)
    (hwf : wfNodes nodes) (hlen : nn.id = nodes.length) (h1 : 1 ≤ nn.id) :
    ∃ succ nonsucc : List Factor,
      updatePoseGraphObsConstraints cfg m nodes nn = succ ++ nonsucc ∧
      (∀ f ∈ succ, f.srcId = nn.id - 1 ∧ f.dstId = nn.id) ∧
      (¬(cfg.nonSuccessiveScanConstraints = true ∧ 2 < nn.id) → nonsucc = []) ∧
      (∀ f ∈ nonsucc, ∃ j, j < nn.id - 2 ∧ ∃ r,
        norm2 ((nodes.getD j dfltNode).pose.translation -
          (nodes.getD (nn.id - 1) dfltNode).pose.translation) ≤
            cfg.maximumNodeDisScanComparison ∧
        ScanMatch cfg m (nodes.getD j dfltNode)
          (nodes.getD (nn.id - 1) dfltNode) = some r ∧
        f = Factor.between j (nn.id - 1) r.1 r.2) ∧
      ((nonsucc.map Factor.srcId).Sublist (List.range (nn.id - 2))) ∧
      (∀ k : ℕ, cfg.maxFactorsPerNode = (k : ℝ) → nonsucc.length ≤ k) := by
  have hpre : (nodes.getD (nn.id - 1) dfltNode).id = nn.id - 1 :=
    hwf (nn.id - 1) (by omega)
  refine ⟨(match ScanMatch cfg m (nodes.getD (nn.id - 1) dfltNode) nn with
      | some r => [Factor.between (nodes.getD (nn.id - 1) dfltNode).id nn.id r.1 r.2]
      | none => []),
    (if cfg.nonSuccessiveScanConstraints = true ∧ 2 < nn.id then
      nonSuccLoop cfg m nodes (nodes.getD (nn.id - 1) dfltNode)
        (List.range (nn.id - 2)) 0
    else []), rfl, ?_, ?_, ?_, ?_, ?_⟩
  · intro f hf
    cases hsm : ScanMatch cfg m (nodes.getD (nn.id - 1) dfltNode) nn with
    | some r =>
      rw [hsm] at hf
      simp only [List.mem_singleton] at hf
      subst hf
      exact ⟨hpre, rfl⟩
    | none => rw [hsm] at hf; simp at hf
  · intro hcond
    rw [if_neg hcond]
  · intro f hf
    by_cases hcond : cfg.nonSuccessiveScanConstraints = true ∧ 2 < nn.id
    · rw [if_pos hcond] at hf
      obtain ⟨j, hj, r, hd, hsm, hfe⟩ := nonSuccLoop_mem cfg m nodes _ _ _ _ hf
      have hjlt : j < nn.id - 2 := List.mem_range.mp hj
      have hjid : (nodes.getD j dfltNode).id = j := hwf j (by omega)
      exact ⟨j, hjlt, r, hd, hsm, by rw [hfe, hjid, hpre]⟩
    · rw [if_neg hcond] at hf; simp at hf
  · by_cases hcond : cfg.nonSuccessiveScanConstraints = true ∧ 2 < nn.id
    · rw [if_pos hcond]
      have hs := nonSuccLoop_srcIds_sublist cfg m nodes
        (nodes.getD (nn.id - 1) dfltNode) (List.range (nn.id - 2)) 0
      have hmapid : (List.range (nn.id - 2)).map (fun i => (nodes.getD i dfltNode).id)
          = List.range (nn.id - 2) := by
        have : ∀ i ∈ List.range (nn.id - 2), (nodes.getD i dfltNode).id = i := by
          intro i hi
          exact hwf i (by have := List.mem_range.mp hi; omega)
        rw [List.map_congr_left this]
        simp
      rw [hmapid] at hs
      exact hs
    · rw [if_neg hcond]; simp
  · intro k hk
    by_cases hcond : cfg.nonSuccessiveScanConstraints = true ∧ 2 < nn.id
    · rw [if_pos hcond]
      have := nonSuccLoop_length_le cfg m nodes (nodes.getD (nn.id - 1) dfltNode)
        k hk (List.range (nn.id - 2)) 0
      omega
    · rw [if_neg hcond]; simp

/-- Witness for C6's amended theorem at a concrete input: the three-node
store with new node 3, the always-converging matcher and the concrete
configuration. -/
theorem c6_nonsuccessive_amended_witness :
    ∃ succ nonsucc : List Factor,
      updatePoseGraphObsConstraints cfgW matcherConv nodesThree nodeThree =
        succ ++ nonsucc ∧
      (∀ f ∈ succ, f.srcId = nodeThree.id - 1 ∧ f.dstId = nodeThree.id) ∧
      (¬(cfgW.nonSuccessiveScanConstraints = true ∧ 2 < nodeThree.id) → nonsucc = []) ∧
      (∀ f ∈ nonsucc, ∃ j, j < nodeThree.id - 2 ∧ ∃ r,
        norm2 ((nodesThree.getD j dfltNode).pose.translation -
          (nodesThree.getD (nodeThree.id - 1) dfltNode).pose.translation) ≤
            cfgW.maximumNodeDisScanComparison ∧
        ScanMatch cfgW matcherConv (nodesThree.getD j dfltNode)
          (nodesThree.getD (nodeThree.id - 1) dfltNode) = some r ∧
        f = Factor.between j (nodeThree.id - 1) r.1 r.2) ∧
      ((nonsucc.map Factor.srcId).Sublist (List.range (nodeThree.id - 2))) ∧
      (∀ k : ℕ, cfgW.maxFactorsPerNode = (k : ℝ) → nonsucc.length ≤ k) :=
  c6_nonsuccessive_amended cfgW matcherConv nodesThree nodeThree
    (by intro k hk
        simp only [nodesThree, List.length_cons, List.length_nil] at hk
        interval_cases k <;> rfl)
    rfl (by norm_num [nodeThree])

lemma convert_scanW : convertLidar2PointCloud [5, 5] (1 / 2) 2 0 1 = some [] := by
  norm_num [convertLidar2PointCloud, fdivFin, floorToUnsigned, lidarLoop, Fp.val]

/-- Counterexample to claim C2 as stated: on the fresh object (no
odometry accumulated, thresholds 1 and 1/2) the very first laser
observation does NOT cause admission — the state is returned unchanged
and no node 0 exists.  Admission is gated by shouldAddPgNode even for the
first scan. -/
theorem c2_first_laser_no_admission :
    observeLaser cfgW solverZero matcherConv [5, 5] (1 / 2) 2 0 1 initState
        = some initState ∧
    initState.pgNodes.length = 0 := by
  constructor
  · unfold observeLaser
    rw [if_neg (by simp [initState])]
    have hsa : shouldAddPgNode cfgW initState = (false, initState) := by
      unfold shouldAddPgNode
      rw [if_neg (by norm_num [initState, cfgW, angleDist, angleMod])]
    rw [hsa]
    simp
  · rfl

/-- Claim C2, amended: the FIRST ADMISSION — the first laser observation
at which the admission check passes while first_scan is still set —
produces node id 0 whose pose is the configured global origin, adds (in
online mode) exactly the prior factor anchoring that origin, submits the
origin as node 0's initial value, performs no scan-match attempt (the
matcher oracle m does not occur in the result) and computes no
displacement, regardless of the accumulated odometry.  The very first
laser observation itself bootstraps only when the admission check passes
at that time. -/
theorem c2_bootstrap_amended (cfg : Config) (solver : Solver) (m : Matcher)
    (ranges : List ℝ) (rmin rmax amin amax : ℝ) (s : SlamState) (pc : List (ℝ × ℝ))
    (hstop : s.stopSlamCmdRecv = false) (hfirst : s.firstScan = true)
    (hempty : s.pgNodes = []) (honline : cfg.runOnline = true)
    (hfires : s.lastNodeCumulativeDist > cfg.minTransDiffBetweenNodes ∨
      angleDist s.prevOdomAngle s.lastNodeOdomPose.angle >
        cfg.minAngleDiffBetweenNodes)
    (hconv : convertLidar2PointCloud ranges rmin rmax amin amax = some pc) :
    observeLaser cfg solver m ranges rmin rmax amin amax s =
      some (optimizePoseGraph solver
        { s with
          lastNodeCumulativeDist := 0
          recentPointCloud := pc
          firstScan := false
          graph := s.graph ++ [Factor.prior 0
            ⟨cfg.initialNodeGlobalTheta,
              (cfg.initialNodeGlobalX, cfg.initialNodeGlobalY)⟩
            (cfg.newNodeXStd, cfg.newNodeYStd, cfg.newNodeThetaStd)]
          lastNodeOdomPose := ⟨s.prevOdomAngle, s.prevOdomLoc⟩
          pgNodes := [⟨⟨cfg.initialNodeGlobalTheta,
            (cfg.initialNodeGlobalX, cfg.initialNodeGlobalY)⟩, 0, pc⟩] }
        [(0, ⟨cfg.initialNodeGlobalTheta,
          (cfg.initialNodeGlobalX, cfg.initialNodeGlobalY)⟩)]) := by
  obtain ⟨pl, pa, oi, fs, d, st, lp, rc, pg, g, rb, ihist⟩ := s
  simp only at hstop hfirst hempty hfires
  subst hstop hfirst hempty
  unfold observeLaser
  rw [if_neg (by simp)]
  unfold shouldAddPgNode
  rw [if_pos hfires]
  simp only
  rw [hconv]
  simp only [Option.some.injEq]
  unfold updatePoseGraph
  rw [if_pos rfl, if_pos honline, if_pos honline]
  rfl

/-- Witness for C2's amended theorem at a concrete input: the fresh state
with 2 units of accumulated distance (threshold 1), the out-of-range scan
[5, 5] (empty cloud), online configuration. -/
theorem c2_bootstrap_amended_witness :
    observeLaser cfgW solverZero matcherConv [5, 5] (1 / 2) 2 0 1
        { initState with lastNodeCumulativeDist := 2 } =
      some (optimizePoseGraph solverZero
        { initState with
          lastNodeCumulativeDist := 0
          recentPointCloud := []
          firstScan := false
          graph := [Factor.prior 0 ⟨0, (0, 0)⟩ (1, 1, 1)]
          lastNodeOdomPose := ⟨0, (0, 0)⟩
          pgNodes := [⟨⟨0, (0, 0)⟩, 0, []⟩] }
        [(0, ⟨0, (0, 0)⟩)]) :=
  c2_bootstrap_amended cfgW solverZero matcherConv [5, 5] (1 / 2) 2 0 1
    { initState with lastNodeCumulativeDist := 2 } [] rfl rfl rfl rfl
    (Or.inl (by norm_num [cfgW, initState])) convert_scanW

lemma c1_odo1 : observeOdometry initState (2, 0) 0 = sOdo1 := by
  simp only [observeOdometry, initState, sOdo1, norm2, Prod.mk_sub_mk]
  norm_num [sqrt_four]

lemma c1_laser1 :
    observeLaser cfgW solverZero matcherConv [5, 5] (1 / 2) 2 0 1 sOdo1 =
      some sNode0 := by
  unfold observeLaser
  rw [if_neg (by simp [sOdo1])]
  have hsa : shouldAddPgNode cfgW sOdo1 =
      (true, { sOdo1 with lastNodeCumulativeDist := 0 }) := by
    unfold shouldAddPgNode
    rw [if_pos (Or.inl (by norm_num [sOdo1, cfgW]))]
  rw [hsa]
  simp only
  rw [convert_scanW]
  simp only [Option.some.injEq]
  unfold updatePoseGraph optimizePoseGraph
  norm_num [cfgW, sOdo1, sNode0, node0W, priorW, solverZero]

lemma c1_odo2 : observeOdometry sNode0 (4, 0) 0 = sOdo2 := by
  simp only [observeOdometry, sNode0, sOdo2, norm2, Prod.mk_sub_mk]
  norm_num [sqrt_four]

lemma c1_laser2 :
    observeLaser cfgW solverZero matcherConv [5, 5] (1 / 2) 2 0 1 sOdo2 =
      some sNode1 := by
  unfold observeLaser
  rw [if_neg (by simp [sOdo2])]
  have hsa : shouldAddPgNode cfgW sOdo2 =
      (true, { sOdo2 with lastNodeCumulativeDist := 0 }) := by
    unfold shouldAddPgNode
    rw [if_pos (Or.inl (by norm_num [sOdo2, cfgW]))]
  rw [hsa]
  simp only
  rw [convert_scanW]
  simp only [Option.some.injEq]
  unfold updatePoseGraph optimizePoseGraph updatePoseGraphObsConstraints
    ScanMatch nonSuccLoop
  norm_num [cfgW, sOdo2, sNode1, node0W, node1W, priorW, btwW, solverZero,
    matcherConv, transformPoseFromMap2Target, transformPoseFromSrc2Map, rotate,
    angleMod, List.getLastD, idMat3]

/-- Claim C1: in online mode every call to SLAM::optimizePoseGraph passes
the ENTIRE accumulated graph_ (never cleared) to isam update, so factors
ARE re-delivered.  In the concrete two-node run the first update call
delivers [prior], and the second delivers [prior, between 0 1] — the
node-0 prior factor is submitted to the solver twice, violating the
stated contract. -/
theorem c1_prior_delivered_twice :
    runC1.map (fun s => s.isamHistory.map Prod.fst) =
      some [[priorW], [priorW, btwW]] := by
  unfold runC1
  rw [c1_odo1, c1_laser1]
  simp only [Option.some_bind]
  rw [c1_odo2, c1_laser2]
  simp [sNode1]

end Slam

end
